import Mathlib

/-!
A shallow embedding of the `dynlink` dynamic-library loading crates
(`dynlink-posix`, `dynlink-win32`, and the unified `dynlink` façade).

Machine addresses and byte/wide-character strings are modelled as `Nat`
and `List Nat` (`0` is the null address / nul terminator).  The OS loader
primitives (`dlopen`, `dlsym`, `dlerror`, `LoadLibraryExW`,
`GetProcAddress`, `GetLastError`) are black-box collaborators: their
behaviour is an arbitrary oracle (`DlEnv` / `W32Env`), and every call a
function makes to a primitive is recorded in an event trace so that call
order (pre-clearing of the diagnostic, diagnostic-read-after-failure,
close-on-drop) can be stated.
-/

/-! ## POSIX backend: `dynlink-posix/src/symtab` -/

/-- The two `cfg(target_os)` branches of the POSIX backend: the
`freebsd` branch, and the branch shared by linux, android, macos, ios,
openbsd, netbsd, dragonfly, solaris, illumos and haiku. -/
inductive PosixTarget
  | linuxFamily
  | freebsd
deriving DecidableEq

/-- Events recording each call the POSIX backend makes to a `dlfcn`
primitive, in order. -/
inductive PosixEv
  | dlerror
  | dlopen (path : List Nat)
  | dlsym (name : List Nat)
  | dlclose (handle : Nat)
deriving DecidableEq

/-- The OS loader oracle for the POSIX backend: the handle `dlopen`
returns for a path and option word (`0` is null), the `dlerror` message
observed after a failing `dlopen` (`none` is a null pointer), the address
`dlsym` resolves for a handle and name, and the `dlerror` message
observed after a null `dlsym` result. -/
structure DlEnv where
  dlopen : List Nat → Nat → Nat
  openDiag : List Nat → Option (List Nat)
  dlsym : Nat → List Nat → Nat
  symDiag : Nat → List Nat → Option (List Nat)

/-- Source `RTLD_LAZY` (libc value on the Linux targets). -/
def RTLD_LAZY : Nat := 1

/-- Source `RTLD_LOCAL` (libc value on the Linux targets). -/
def RTLD_LOCAL : Nat := 0

/-- Source `PosixSystemMessage`: an owned diagnostic message cloned from the
platform's C string. -/
structure PosixSystemMessage where
  msg : List Nat
deriving DecidableEq

/-- Source `PosixSystemMessage::clone_from_str`: owns a copy of the C string's
bytes. -/
def PosixSystemMessage.clone_from_str (m : List Nat) : PosixSystemMessage :=
  ⟨m⟩

/-- Source `PosixLinkingError`: `System` with a platform message, or `Unknown`. -/
inductive PosixLinkingError
  | System (msg : PosixSystemMessage)
  | Unknown
deriving DecidableEq

/-- Source `PosixLinkingError::clone_from_str`. -/
def PosixLinkingError.clone_from_str (m : List Nat) : PosixLinkingError :=
  PosixLinkingError.System (PosixSystemMessage.clone_from_str m)

/-- Source `PosixLinkingError::clone_from_ptr`: a non-null diagnostic pointer is
copied into `System`, a null pointer becomes `Unknown`. -/
def PosixLinkingError.clone_from_ptr : Option (List Nat) → PosixLinkingError
  | some m => PosixLinkingError.clone_from_str m
  | none => PosixLinkingError.Unknown

/-- Source `PosixHandle`: wraps the opaque native handle returned by `dlopen`. -/
structure PosixHandle where
  ptr : Nat
deriving DecidableEq

/-- Source `PosixSymbol`: wraps one resolved address.  The phantom type and
lifetime parameters of the Rust struct are compile-time only and carry no
runtime data, so they are dropped from the model. -/
structure PosixSymbol where
  addr : Nat
deriving DecidableEq

/-- Source `PosixSymbol::from_ptr`. -/
def PosixSymbol.from_ptr (p : Nat) : PosixSymbol :=
  ⟨p⟩

/-- Source `PosixSymbol::apply`: reinterprets the stored address as the
represented (address-sized) type and feeds it to `f`.  The bit-for-bit
reinterpretation of an address-sized value is the identity on the stored
address in this model. -/
def PosixSymbol.apply {R : Type} (s : PosixSymbol) (f : Nat → R) : R :=
  f s.addr

/-- Source `PosixSymbol::leak`. -/
def PosixSymbol.leak (s : PosixSymbol) : Nat :=
  s.addr

/-- Source `PosixSymbol::leak_as_raw`. -/
def PosixSymbol.leak_as_raw (s : PosixSymbol) : Nat :=
  s.addr

/-- Rust `impl Clone for PosixSymbol`: rebuilds the struct from the same
address. -/
def PosixSymbol.clone (s : PosixSymbol) : PosixSymbol :=
  ⟨s.addr⟩

/-- The `cfg(target_os = "freebsd")` pre-clearing call
`let _ = libc::dlerror();` present at the top of `openc` and `lookupc`
on the freebsd branch only. -/
def PosixTarget.preClear : PosixTarget → List PosixEv
  | PosixTarget.freebsd => [PosixEv.dlerror]
  | PosixTarget.linuxFamily => []

/-- Source `PosixHandle::openc`: calls `dlopen` (after the freebsd-only
pre-clear); a non-null handle is success, a null handle reads `dlerror`
and builds the error with `clone_from_ptr`.  Returns the result together
with the trace of primitive calls made. -/
def PosixHandle.openc (t : PosixTarget) (path : List Nat) (options : Nat)
    (env : DlEnv) : Except PosixLinkingError PosixHandle × List PosixEv :=
  let pre := t.preClear
  let handle := env.dlopen path options
  if handle ≠ 0 then
    (Except.ok ⟨handle⟩, pre ++ [PosixEv.dlopen path])
  else
    (Except.error (PosixLinkingError.clone_from_ptr (env.openDiag path)),
      pre ++ [PosixEv.dlopen path, PosixEv.dlerror])

/-- Source `PosixHandle::lookupc`: calls `dlsym` (after the freebsd-only
pre-clear).  On the linux-family branch a null address reads `dlerror`
and is success when the diagnostic is null, failure otherwise; on the
freebsd branch a null address reads `dlerror` and is always failure,
built with `clone_from_ptr`. -/
def PosixHandle.lookupc (t : PosixTarget) (self : PosixHandle)
    (symbol : List Nat) (env : DlEnv) :
    Except PosixLinkingError PosixSymbol × List PosixEv :=
  let pre := t.preClear
  let ptr := env.dlsym self.ptr symbol
  match t with
  | PosixTarget.linuxFamily =>
    if ptr ≠ 0 then
      (Except.ok (PosixSymbol.from_ptr ptr), pre ++ [PosixEv.dlsym symbol])
    else
      match env.symDiag self.ptr symbol with
      | none =>
        (Except.ok (PosixSymbol.from_ptr ptr),
          pre ++ [PosixEv.dlsym symbol, PosixEv.dlerror])
      | some m =>
        (Except.error (PosixLinkingError.clone_from_ptr (some m)),
          pre ++ [PosixEv.dlsym symbol, PosixEv.dlerror])
  | PosixTarget.freebsd =>
    if ptr ≠ 0 then
      (Except.ok (PosixSymbol.from_ptr ptr), pre ++ [PosixEv.dlsym symbol])
    else
      (Except.error (PosixLinkingError.clone_from_ptr (env.symDiag self.ptr symbol)),
        pre ++ [PosixEv.dlsym symbol, PosixEv.dlerror])

/-- Source `memchr` from `dynlink-win32/src/ffi/wcstr.rs`: index of the first
occurrence of `x`, or `none`.  The same first-occurrence search also
models the nul scan of std's `CStr::from_bytes_until_nul` (an external
collaborator of `PosixHandle::lookup`/`open`). -/
def memchr (x : Nat) : List Nat → Option Nat
  | [] => none
  | d :: rest => if d = x then some 0 else (memchr x rest).map (· + 1)

/-- Modelled from std: `CStr::from_bytes_until_nul` succeeds when the
input contains a nul and yields the C string whose content is the bytes
strictly before the first nul. -/
def cstrFromBytesUntilNul (b : List Nat) : Option (List Nat) :=
  match memchr 0 b with
  | some idx => some (b.take idx)
  | none => none

/-- Source `PosixHandle::lookup`: normalizes the symbol name.  If the bytes
contain a nul, the C string up to the first nul is used; otherwise a
terminator is appended (so the C string content is the full byte
sequence) and `lookupc` is called. -/
def PosixHandle.lookup (t : PosixTarget) (self : PosixHandle)
    (symbol : List Nat) (env : DlEnv) :
    Except PosixLinkingError PosixSymbol × List PosixEv :=
  match cstrFromBytesUntilNul symbol with
  | some csymbol => PosixHandle.lookupc t self csymbol env
  | none => PosixHandle.lookupc t self symbol env

/-- Source `PosixHandle::open`: same normalization applied to the path, then
`openc` with the default options `RTLD_LAZY | RTLD_LOCAL`. -/
def PosixHandle.openPath (t : PosixTarget) (path : List Nat) (env : DlEnv) :
    Except PosixLinkingError PosixHandle × List PosixEv :=
  let options := RTLD_LAZY ||| RTLD_LOCAL
  match cstrFromBytesUntilNul path with
  | some cpath => PosixHandle.openc t cpath options env
  | none => PosixHandle.openc t path options env

/-- Source `impl Drop for PosixHandle`: unconditionally calls `dlclose` on the
stored native handle, once. -/
def PosixHandle.drop (self : PosixHandle) : List PosixEv :=
  [PosixEv.dlclose self.ptr]

/-- Whether an event is a `dlclose` call. -/
def PosixEv.isClose : PosixEv → Bool
  | PosixEv.dlclose _ => true
  | _ => false

/-- One whole handle lifetime, as Rust's ownership discipline runs it: a
single `openc`; on success, one `lookupc` per requested name, and then
the `Drop` glue exactly once when the handle value dies; on failure no
handle exists, so nothing else runs. -/
def posixSession (t : PosixTarget) (path : List Nat) (options : Nat)
    (names : List (List Nat)) (env : DlEnv) : List PosixEv :=
  match PosixHandle.openc t path options env with
  | (Except.ok h, tr) =>
    tr ++ (names.map (fun n => (PosixHandle.lookupc t h n env).snd)).flatten
      ++ h.drop
  | (Except.error _, tr) => tr

/-! ## Windows backend: `dynlink-win32/src/symtab` and `src/ffi/wcstr.rs` -/

/-- The OS loader oracle for the Windows backend: the handle
`LoadLibraryExW` returns for a wide path and flag word (`0` is null),
the `GetLastError` code after a failing `LoadLibraryExW`, the address
`GetProcAddress` resolves (`none` is a null pointer), and the
`GetLastError` code after a failing `GetProcAddress`. -/
structure W32Env where
  loadLibrary : List Nat → Nat → Nat
  openLastError : List Nat → Nat
  getProcAddress : Nat → List Nat → Option Nat
  lastError : Nat → List Nat → Nat

/-- Source `Win32SystemCode`: a `WIN32_ERROR` status code. -/
structure Win32SystemCode where
  code : Nat
deriving DecidableEq

/-- Source `Win32LinkingError`: `System` with a status code, or `Unknown`. -/
inductive Win32LinkingError
  | System (code : Win32SystemCode)
  | Unknown
deriving DecidableEq

/-- Source `Win32LinkingError::from_raw_code`: matches the raw code, sending
`0` to `Unknown` and anything else to `System` of that code. -/
def Win32LinkingError.from_raw_code (c : Nat) : Win32LinkingError :=
  match c with
  | 0 => Win32LinkingError.Unknown
  | _ => Win32LinkingError.System ⟨c⟩

/-- Source `Win32Handle`: wraps the opaque native handle from `LoadLibraryExW`. -/
structure Win32Handle where
  ptr : Nat
deriving DecidableEq

/-- Source `Win32Symbol`: wraps one resolved address (phantom parameters
dropped, as for `PosixSymbol`). -/
structure Win32Symbol where
  addr : Nat
deriving DecidableEq

/-- Source `Win32Symbol::from_ptr`. -/
def Win32Symbol.from_ptr (p : Nat) : Win32Symbol :=
  ⟨p⟩

/-- Source `Win32Handle::openwc`: `LoadLibraryExW`; a null handle reads
`GetLastError` and builds the error with `from_raw_code`. -/
def Win32Handle.openwc (wpath : List Nat) (options : Nat) (env : W32Env) :
    Except Win32LinkingError Win32Handle :=
  let handle := env.loadLibrary wpath options
  if handle ≠ 0 then
    Except.ok ⟨handle⟩
  else
    Except.error (Win32LinkingError.from_raw_code (env.openLastError wpath))

/-- Source `Win32Handle::lookupc`: `GetProcAddress`; a null result reads
`GetLastError` and builds the error with `from_raw_code`. -/
def Win32Handle.lookupc (self : Win32Handle) (symbol : List Nat)
    (env : W32Env) : Except Win32LinkingError Win32Symbol :=
  match env.getProcAddress self.ptr symbol with
  | some addr => Except.ok (Win32Symbol.from_ptr addr)
  | none =>
    Except.error (Win32LinkingError.from_raw_code (env.lastError self.ptr symbol))

/-- Events recording calls the Windows backend makes to loader
primitives; only the `Drop` glue's `FreeLibrary` call is needed here. -/
inductive Win32Ev
  | freeLibrary (handle : Nat)
deriving DecidableEq

/-- Source `impl Drop for Win32Handle`: unconditionally calls `FreeLibrary` on
the stored native handle, once. -/
def Win32Handle.drop (self : Win32Handle) : List Win32Ev :=
  [Win32Ev.freeLibrary self.ptr]

/-- Whether an event is a `FreeLibrary` call. -/
def Win32Ev.isFree : Win32Ev → Bool
  | Win32Ev.freeLibrary _ => true

/-- Source `FromBytesUntilNulError` of `wcstr.rs`: the data contained no nul. -/
inductive FromBytesUntilNulError
  | mk
deriving DecidableEq

/-- Source `FromBytesWithNulError` of `wcstr.rs`. -/
inductive FromBytesWithNulError
  | InteriorNul (position : Nat)
  | NotNulTerminated
deriving DecidableEq

/-- Source `WCStr::from_wide_until_nul`: wraps the prefix of `data` of length
`idx + 1` where `idx` is the first nul's index; fails when there is no
nul.  The returned wrapper is represented by its underlying slice. -/
def WCStr.from_wide_until_nul (data : List Nat) :
    Except FromBytesUntilNulError (List Nat) :=
  match memchr 0 data with
  | some idx => Except.ok (data.take (idx + 1))
  | none => Except.error FromBytesUntilNulError.mk

/-- Source `WCStr::from_wide_with_nul`: succeeds on `data` unchanged when the
first nul is the last element; `InteriorNul` at the first nul's index
when a nul occurs earlier; `NotNulTerminated` when there is no nul. -/
def WCStr.from_wide_with_nul (data : List Nat) :
    Except FromBytesWithNulError (List Nat) :=
  match memchr 0 data with
  | some idx =>
    if idx + 1 = data.length then
      Except.ok data
    else
      Except.error (FromBytesWithNulError.InteriorNul idx)
  | none => Except.error FromBytesWithNulError.NotNulTerminated

/-! ## Unified façade: `dynlink/src/api/handle.rs` (unix build, where
`PlatformHandle = PosixHandle`, `PlatformLinkingError = PosixLinkingError`,
`PlatformMessage = PosixSystemMessage`) -/

/-- Façade `LinkingError`: `System` with the platform message, or
`Unknown`. -/
inductive LinkingError
  | System (msg : PosixSystemMessage)
  | Unknown
deriving DecidableEq

/-- Source `LinkingError::from`: maps the platform error variantwise, keeping
the message. -/
def LinkingError.fromPlatform : PosixLinkingError → LinkingError
  | PosixLinkingError.System m => LinkingError.System m
  | PosixLinkingError.Unknown => LinkingError.Unknown

/-- Façade `Handle`: wraps the platform handle. -/
structure Handle where
  inner : PosixHandle
deriving DecidableEq

/-- Façade `Symbol` (named `FacadeSymbol` here because Mathlib already
declares a `Symbol`): wraps the platform symbol. -/
structure FacadeSymbol where
  inner : PosixSymbol
deriving DecidableEq

/-- Source `Handle::open`: forwards to the platform open and rewraps both the
success value and the error. -/
def Handle.openPath (t : PosixTarget) (path : List Nat) (env : DlEnv) :
    Except LinkingError Handle :=
  match (PosixHandle.openPath t path env).fst with
  | Except.ok h => Except.ok ⟨h⟩
  | Except.error e => Except.error (LinkingError.fromPlatform e)

/-- Source `Handle::lookup`: forwards to the platform lookup and rewraps both
the success value and the error. -/
def Handle.lookup (t : PosixTarget) (self : Handle) (symbol : List Nat)
    (env : DlEnv) : Except LinkingError FacadeSymbol :=
  match (PosixHandle.lookup t self.inner symbol env).fst with
  | Except.ok s => Except.ok ⟨s⟩
  | Except.error e => Except.error (LinkingError.fromPlatform e)

/-! ## Helper lemmas -/

/-- Source `memchr` finds an occurrence, and the first one. -/
theorem memchr_some_spec {x : Nat} :
    ∀ {l : List Nat} {i : Nat}, memchr x l = some i →
      i < l.length ∧ l.get? i = some x ∧ ∀ j, j < i → l.get? j ≠ some x := by
  intro l
  induction l with
  | nil => intro i h; simp [memchr] at h
  | cons a rest ih =>
    intro i h
    by_cases hax : a = x
    · rw [memchr, if_pos hax] at h
      simp only [Option.some.injEq] at h
      subst h
      subst hax
      exact ⟨by simp, rfl, fun j hj => absurd hj (Nat.not_lt_zero j)⟩
    · rw [memchr, if_neg hax] at h
      cases hm : memchr x rest with
      | none => rw [hm] at h; simp at h
      | some i0 =>
        rw [hm] at h
        simp only [Option.map_some', Option.some.injEq] at h
        subst h
        obtain ⟨hlt, hget, hfirst⟩ := ih hm
        refine ⟨by simpa using hlt, by simpa using hget, ?_⟩
        intro j hj
        cases j with
        | zero =>
          simp only [List.get?_cons_zero, ne_eq, Option.some.injEq]
          exact hax
        | succ j0 =>
          simp only [List.get?_cons_succ]
          exact hfirst j0 (by omega)

/-- Source `memchr` misses exactly when the value is absent. -/
theorem memchr_eq_none_iff {x : Nat} :
    ∀ {l : List Nat}, memchr x l = none ↔ x ∉ l := by
  intro l
  induction l with
  | nil => simp [memchr]
  | cons a rest ih =>
    by_cases hax : a = x
    · subst hax
      simp [memchr]
    · rw [memchr, if_neg hax]
      constructor
      · intro h hmem
        rcases List.mem_cons.mp hmem with hx | hx
        · exact hax hx.symm
        · exact (ih.mp (by simpa using h)) hx
      · intro h
        have : x ∉ rest := fun hx => h (List.mem_cons_of_mem a hx)
        simp [ih.mpr this]

/-- Up to the first nul, `take` and `takeWhile (· ≠ 0)` agree. -/
theorem memchr_take_eq_takeWhile :
    ∀ {l : List Nat} {i : Nat}, memchr 0 l = some i →
      l.take i = l.takeWhile (fun b => b != 0) := by
  intro l
  induction l with
  | nil => intro i h; simp [memchr] at h
  | cons a rest ih =>
    intro i h
    by_cases ha : a = 0
    · rw [memchr, if_pos ha] at h
      simp only [Option.some.injEq] at h
      subst h
      subst ha
      simp [List.takeWhile_cons]
    · rw [memchr, if_neg ha] at h
      cases hm : memchr 0 rest with
      | none => rw [hm] at h; simp at h
      | some i0 =>
        rw [hm] at h
        simp only [Option.map_some', Option.some.injEq] at h
        subst h
        have hb : (a != 0) = true := by simpa using ha
        simp [List.take_succ_cons, List.takeWhile_cons, hb, ih hm]

/-- A nul-free list is left whole by `takeWhile (· ≠ 0)`. -/
theorem takeWhile_eq_self_of_nul_free :
    ∀ {l : List Nat}, 0 ∉ l → l.takeWhile (fun b => b != 0) = l := by
  intro l
  induction l with
  | nil => intro _; rfl
  | cons a rest ih =>
    intro h
    have ha : a ≠ 0 := fun he => h (by simp [he])
    have hb : (a != 0) = true := by simpa using ha
    have hr : 0 ∉ rest := fun hx => h (List.mem_cons_of_mem a hx)
    simp [List.takeWhile_cons, hb, ih hr]

/-! ## Claims -/

/-- C10: `WCStr::from_wide_with_nul` succeeds exactly when the first nul
of the input is its last element, returning the input unchanged; a nul
before the last element yields `InteriorNul` at the first nul's index,
and no nul yields `NotNulTerminated`.  `WCStr::from_wide_until_nul`
returns the prefix up to and including the first nul, and fails exactly
when there is no nul.  (`memchr` is characterized as the first-nul scan
in the first two conjuncts.) -/
theorem c10_wcstr_nul_scanning (d : List Nat) :
    (∀ i, memchr 0 d = some i →
      i < d.length ∧ d.get? i = some 0 ∧ ∀ j, j < i → d.get? j ≠ some 0) ∧
    (memchr 0 d = none → ∀ y ∈ d, y ≠ 0) ∧
    (∀ i, memchr 0 d = some i → i + 1 = d.length →
      WCStr.from_wide_with_nul d = Except.ok d) ∧
    (∀ i, memchr 0 d = some i → i + 1 ≠ d.length →
      WCStr.from_wide_with_nul d =
        Except.error (FromBytesWithNulError.InteriorNul i)) ∧
    (memchr 0 d = none →
      WCStr.from_wide_with_nul d =
        Except.error FromBytesWithNulError.NotNulTerminated) ∧
    (∀ i, memchr 0 d = some i →
      WCStr.from_wide_until_nul d = Except.ok (d.take (i + 1))) ∧
    (memchr 0 d = none →
      WCStr.from_wide_until_nul d = Except.error FromBytesUntilNulError.mk) := by
  refine ⟨fun i h => memchr_some_spec h, ?_, ?_, ?_, ?_, ?_, ?_⟩
  · intro h y hy he
    exact memchr_eq_none_iff.mp h (he ▸ hy)
  · intro i h hlen
    simp [WCStr.from_wide_with_nul, h, hlen]
  · intro i h hlen
    simp [WCStr.from_wide_with_nul, h, hlen]
  · intro h
    simp [WCStr.from_wide_with_nul, h]
  · intro i h
    simp [WCStr.from_wide_until_nul, h]
  · intro h
    simp [WCStr.from_wide_until_nul, h]

/-- Witness for C10 at concrete inputs. -/
theorem c10_witness :
    WCStr.from_wide_with_nul [1, 0] = Except.ok [1, 0] ∧
    WCStr.from_wide_with_nul [1, 0, 2] =
      Except.error (FromBytesWithNulError.InteriorNul 1) ∧
    WCStr.from_wide_until_nul [1, 0, 2] = Except.ok [1, 0] := by
  refine ⟨?_, ?_, ?_⟩
  · exact (c10_wcstr_nul_scanning [1, 0]).2.2.1 1 (by decide) (by decide)
  · exact (c10_wcstr_nul_scanning [1, 0, 2]).2.2.2.1 1 (by decide) (by decide)
  · exact (c10_wcstr_nul_scanning [1, 0, 2]).2.2.2.2.2.1 1 (by decide)

/-- C8: a symbol built from a resolved address leaks back exactly that
address: `leak_as_raw` after `from_ptr` is the identity. -/
theorem c8_leak_as_raw_round_trip (a : Nat) :
    (PosixSymbol.from_ptr a).leak_as_raw = a :=
  rfl

/-- C9: cloning a symbol duplicates the stored address exactly, so
`apply`, `leak` and `leak_as_raw` through the clone agree with the
original; the clone carries no resource beyond that address. -/
theorem c9_clone_is_address_copy (s : PosixSymbol) (R : Type) (f : Nat → R) :
    s.clone.addr = s.addr ∧
    s.clone.apply f = s.apply f ∧
    s.clone.leak = s.leak ∧
    s.clone.leak_as_raw = s.leak_as_raw :=
  ⟨rfl, rfl, rfl, rfl⟩

/-- C5: `Win32LinkingError::from_raw_code` maps code `0` to `Unknown`
and any nonzero code `c` to `System(c)` unchanged, and both failing
`LoadLibraryExW` (in `openwc`) and failing `GetProcAddress` (in
`lookupc`) build their error through it from the last-error code. -/
theorem c5_last_error_code_mapping (c : Nat) (h : Win32Handle)
    (n : List Nat) (wpath : List Nat) (flags : Nat) (env : W32Env) :
    Win32LinkingError.from_raw_code 0 = Win32LinkingError.Unknown ∧
    (c ≠ 0 → Win32LinkingError.from_raw_code c = Win32LinkingError.System ⟨c⟩) ∧
    (env.getProcAddress h.ptr n = none →
      Win32Handle.lookupc h n env =
        Except.error (Win32LinkingError.from_raw_code (env.lastError h.ptr n))) ∧
    (env.loadLibrary wpath flags = 0 →
      Win32Handle.openwc wpath flags env =
        Except.error (Win32LinkingError.from_raw_code (env.openLastError wpath))) := by
  refine ⟨rfl, ?_, ?_, ?_⟩
  · intro hc
    cases c with
    | zero => exact absurd rfl hc
    | succ c0 => rfl
  · intro hg
    simp [Win32Handle.lookupc, hg]
  · intro hl
    simp [Win32Handle.openwc, hl]

/-- Witness for C5 at a concrete code and environment. -/
theorem c5_witness :
    Win32LinkingError.from_raw_code 7 = Win32LinkingError.System ⟨7⟩ ∧
    Win32Handle.lookupc ⟨1⟩ [97]
      ⟨fun _ _ => 0, fun _ => 5, fun _ _ => none, fun _ _ => 7⟩ =
      Except.error (Win32LinkingError.System ⟨7⟩) ∧
    Win32Handle.openwc [98] 0
      ⟨fun _ _ => 0, fun _ => 5, fun _ _ => none, fun _ _ => 7⟩ =
      Except.error (Win32LinkingError.System ⟨5⟩) := by
  obtain ⟨h1, h2, h3, h4⟩ :=
    c5_last_error_code_mapping 7 ⟨1⟩ [97] [98] 0
      ⟨fun _ _ => 0, fun _ => 5, fun _ _ => none, fun _ _ => 7⟩
  exact ⟨h2 (by decide), (h3 rfl).trans (by rfl), (h4 rfl).trans (by rfl)⟩

/-- C1 counterexample: on the BSD-family branch of `lookupc`, a null
resolved address with a null diagnostic is NOT success — the call
returns `Err(Unknown)`, not a symbol wrapping the null address. -/
theorem c1_counterexample :
    (PosixHandle.lookupc PosixTarget.freebsd ⟨1⟩ [97]
      ⟨fun _ _ => 1, fun _ => none, fun _ _ => 0, fun _ _ => none⟩).fst =
      Except.error PosixLinkingError.Unknown ∧
    (PosixHandle.lookupc PosixTarget.freebsd ⟨1⟩ [97]
      ⟨fun _ _ => 1, fun _ => none, fun _ _ => 0, fun _ _ => none⟩).fst ≠
      Except.ok (PosixSymbol.from_ptr 0) := by
  refine ⟨rfl, ?_⟩
  intro h
  simp [PosixHandle.lookupc, PosixTarget.preClear,
    PosixLinkingError.clone_from_ptr] at h

/-- C1 (amended): when `dlsym` resolves a null address, the
null-address-without-diagnostic-is-success rule holds only on the
Linux-family branch of `lookupc`; the BSD-family (freebsd) branch
always fails on a null address — `Unknown` without a diagnostic,
`System` with one.  With a diagnostic both branches fail with `System`
carrying the copied message. -/
theorem c1_null_address_lookup (h : PosixHandle) (n : List Nat)
    (env : DlEnv) (h0 : env.dlsym h.ptr n = 0) :
    (env.symDiag h.ptr n = none →
      (PosixHandle.lookupc PosixTarget.linuxFamily h n env).fst =
        Except.ok (PosixSymbol.from_ptr 0) ∧
      (PosixHandle.lookupc PosixTarget.freebsd h n env).fst =
        Except.error PosixLinkingError.Unknown) ∧
    (∀ m, env.symDiag h.ptr n = some m →
      (PosixHandle.lookupc PosixTarget.linuxFamily h n env).fst =
        Except.error (PosixLinkingError.System ⟨m⟩) ∧
      (PosixHandle.lookupc PosixTarget.freebsd h n env).fst =
        Except.error (PosixLinkingError.System ⟨m⟩)) := by
  constructor
  · intro hd
    constructor <;>
      simp [PosixHandle.lookupc, PosixTarget.preClear, h0, hd,
        PosixLinkingError.clone_from_ptr]
  · intro m hd
    constructor <;>
      simp [PosixHandle.lookupc, PosixTarget.preClear, h0, hd,
        PosixLinkingError.clone_from_ptr, PosixLinkingError.clone_from_str,
        PosixSystemMessage.clone_from_str]

/-- Witness for C1 (amended) at a concrete environment. -/
theorem c1_witness :
    (PosixHandle.lookupc PosixTarget.linuxFamily ⟨1⟩ [97]
      ⟨fun _ _ => 1, fun _ => none, fun _ _ => 0, fun _ _ => none⟩).fst =
      Except.ok (PosixSymbol.from_ptr 0) ∧
    (PosixHandle.lookupc PosixTarget.freebsd ⟨2⟩ [98]
      ⟨fun _ _ => 1, fun _ => none, fun _ _ => 0, fun _ _ => some [5]⟩).fst =
      Except.error (PosixLinkingError.System ⟨[5]⟩) := by
  constructor
  · exact ((c1_null_address_lookup ⟨1⟩ [97]
      ⟨fun _ _ => 1, fun _ => none, fun _ _ => 0, fun _ _ => none⟩ rfl).1 rfl).1
  · exact ((c1_null_address_lookup ⟨2⟩ [98]
      ⟨fun _ _ => 1, fun _ => none, fun _ _ => 0, fun _ _ => some [5]⟩ rfl).2
        [5] rfl).2

/-- C2: `lookup` always resolves exactly the bytes before the first nul
of the caller's name — the first-nul prefix when a nul is embedded, and
the full byte sequence unchanged when there is none. -/
theorem c2_lookup_first_nul_wins (t : PosixTarget) (h : PosixHandle)
    (name : List Nat) (env : DlEnv) :
    PosixHandle.lookup t h name env =
      PosixHandle.lookupc t h (name.takeWhile (fun b => b != 0)) env ∧
    (0 ∉ name →
      PosixHandle.lookup t h name env = PosixHandle.lookupc t h name env) := by
  constructor
  · rw [PosixHandle.lookup, cstrFromBytesUntilNul]
    cases hm : memchr 0 name with
    | some i =>
      show PosixHandle.lookupc t h (List.take i name) env = _
      rw [memchr_take_eq_takeWhile hm]
    | none =>
      show PosixHandle.lookupc t h name env = _
      rw [takeWhile_eq_self_of_nul_free (memchr_eq_none_iff.mp hm)]
  · intro hmem
    rw [PosixHandle.lookup, cstrFromBytesUntilNul, memchr_eq_none_iff.mpr hmem]

/-- Witness for C2 at concrete names. -/
theorem c2_witness :
    PosixHandle.lookup PosixTarget.linuxFamily ⟨1⟩ [97, 0, 98]
      ⟨fun _ _ => 1, fun _ => none, fun _ _ => 2, fun _ _ => none⟩ =
      PosixHandle.lookupc PosixTarget.linuxFamily ⟨1⟩ [97]
        ⟨fun _ _ => 1, fun _ => none, fun _ _ => 2, fun _ _ => none⟩ ∧
    PosixHandle.lookup PosixTarget.linuxFamily ⟨1⟩ [99]
      ⟨fun _ _ => 1, fun _ => none, fun _ _ => 2, fun _ _ => none⟩ =
      PosixHandle.lookupc PosixTarget.linuxFamily ⟨1⟩ [99]
        ⟨fun _ _ => 1, fun _ => none, fun _ _ => 2, fun _ _ => none⟩ := by
  constructor
  · exact (c2_lookup_first_nul_wins PosixTarget.linuxFamily ⟨1⟩ [97, 0, 98]
      ⟨fun _ _ => 1, fun _ => none, fun _ _ => 2, fun _ _ => none⟩).1
  · exact (c2_lookup_first_nul_wins PosixTarget.linuxFamily ⟨1⟩ [99]
      ⟨fun _ _ => 1, fun _ => none, fun _ _ => 2, fun _ _ => none⟩).2 (by decide)

/-- C4: a failing `openc` (null handle from `dlopen`) reads the
diagnostic and returns `System` with an owned copy of a non-null
message or `Unknown` for a null one, on either target branch; a
non-null handle is success with no error. -/
theorem c4_open_error_from_diagnostic (t : PosixTarget) (p : List Nat)
    (o : Nat) (env : DlEnv) :
    (env.dlopen p o ≠ 0 →
      (PosixHandle.openc t p o env).fst = Except.ok ⟨env.dlopen p o⟩) ∧
    (env.dlopen p o = 0 → env.openDiag p = none →
      (PosixHandle.openc t p o env).fst =
        Except.error PosixLinkingError.Unknown) ∧
    (∀ m, env.dlopen p o = 0 → env.openDiag p = some m →
      (PosixHandle.openc t p o env).fst =
        Except.error (PosixLinkingError.System ⟨m⟩)) := by
  refine ⟨?_, ?_, ?_⟩
  · intro hne
    simp [PosixHandle.openc, hne]
  · intro hz hd
    simp [PosixHandle.openc, hz, hd, PosixLinkingError.clone_from_ptr]
  · intro m hz hd
    simp [PosixHandle.openc, hz, hd, PosixLinkingError.clone_from_ptr,
      PosixLinkingError.clone_from_str, PosixSystemMessage.clone_from_str]

/-- Witness for C4 at concrete environments. -/
theorem c4_witness :
    (PosixHandle.openc PosixTarget.linuxFamily [108] 1
      ⟨fun _ _ => 3, fun _ => none, fun _ _ => 0, fun _ _ => none⟩).fst =
      Except.ok ⟨3⟩ ∧
    (PosixHandle.openc PosixTarget.linuxFamily [108] 1
      ⟨fun _ _ => 0, fun _ => none, fun _ _ => 0, fun _ _ => none⟩).fst =
      Except.error PosixLinkingError.Unknown ∧
    (PosixHandle.openc PosixTarget.freebsd [108] 1
      ⟨fun _ _ => 0, fun _ => some [9], fun _ _ => 0, fun _ _ => none⟩).fst =
      Except.error (PosixLinkingError.System ⟨[9]⟩) := by
  refine ⟨?_, ?_, ?_⟩
  · exact (c4_open_error_from_diagnostic PosixTarget.linuxFamily [108] 1
      ⟨fun _ _ => 3, fun _ => none, fun _ _ => 0, fun _ _ => none⟩).1 (by decide)
  · exact (c4_open_error_from_diagnostic PosixTarget.linuxFamily [108] 1
      ⟨fun _ _ => 0, fun _ => none, fun _ _ => 0, fun _ _ => none⟩).2.1 rfl rfl
  · exact (c4_open_error_from_diagnostic PosixTarget.freebsd [108] 1
      ⟨fun _ _ => 0, fun _ => some [9], fun _ _ => 0, fun _ _ => none⟩).2.2
        [9] rfl rfl

/-- Source `openc` never calls `dlclose`. -/
theorem openc_countP_close (t : PosixTarget) (p : List Nat) (o : Nat)
    (env : DlEnv) :
    ((PosixHandle.openc t p o env).snd).countP PosixEv.isClose = 0 := by
  cases t <;> by_cases hz : env.dlopen p o = 0 <;>
    simp [PosixHandle.openc, PosixTarget.preClear, hz, List.countP_cons,
      List.countP_nil, PosixEv.isClose]

/-- Source `lookupc` never calls `dlclose`. -/
theorem lookupc_countP_close (t : PosixTarget) (h : PosixHandle)
    (n : List Nat) (env : DlEnv) :
    ((PosixHandle.lookupc t h n env).snd).countP PosixEv.isClose = 0 := by
  cases t <;> by_cases hz : env.dlsym h.ptr n = 0 <;>
    cases hd : env.symDiag h.ptr n <;>
    simp [PosixHandle.lookupc, PosixTarget.preClear, hz, hd, List.countP_cons,
      List.countP_nil, PosixEv.isClose]

/-- C3: over a whole handle lifetime (`openc`, any number of lookups —
including zero —, then the `Drop` glue), the close primitive is invoked
exactly once, on the handle's native pointer, whenever `openc`
succeeded; when `openc` failed no close happens at all.  The Windows
`Drop` glue likewise is a single `FreeLibrary` on the native pointer. -/
theorem c3_close_exactly_once (t : PosixTarget) (path : List Nat)
    (options : Nat) (names : List (List Nat)) (env : DlEnv)
    (w : Win32Handle) :
    (∀ h tr, PosixHandle.openc t path options env = (Except.ok h, tr) →
      (posixSession t path options names env).countP PosixEv.isClose = 1 ∧
      PosixEv.dlclose h.ptr ∈ posixSession t path options names env) ∧
    (∀ e tr, PosixHandle.openc t path options env = (Except.error e, tr) →
      (posixSession t path options names env).countP PosixEv.isClose = 0) ∧
    (Win32Handle.drop w).countP Win32Ev.isFree = 1 ∧
    Win32Handle.drop w = [Win32Ev.freeLibrary w.ptr] := by
  refine ⟨?_, ?_, rfl, rfl⟩
  · intro h tr hopen
    have hsess : posixSession t path options names env =
        tr ++ (names.map fun n => (PosixHandle.lookupc t h n env).snd).flatten
          ++ h.drop := by
      simp [posixSession, hopen]
    have htr : tr.countP PosixEv.isClose = 0 := by
      have h0 := openc_countP_close t path options env
      rw [hopen] at h0
      exact h0
    have hflat :
        ((names.map fun n => (PosixHandle.lookupc t h n env).snd).flatten).countP
          PosixEv.isClose = 0 := by
      rw [List.countP_eq_zero]
      intro ev hev
      rw [List.mem_flatten] at hev
      obtain ⟨l, hl, hevl⟩ := hev
      rw [List.mem_map] at hl
      obtain ⟨nm, _, rfl⟩ := hl
      exact List.countP_eq_zero.mp (lookupc_countP_close t h nm env) ev hevl
    constructor
    · rw [hsess, List.countP_append, List.countP_append, htr, hflat]
      simp [PosixHandle.drop, List.countP_cons, List.countP_nil, PosixEv.isClose]
    · rw [hsess]
      simp [PosixHandle.drop]
  · intro e tr hopen
    have hsess : posixSession t path options names env = tr := by
      simp [posixSession, hopen]
    rw [hsess]
    have h0 := openc_countP_close t path options env
    rw [hopen] at h0
    exact h0

/-- Witness for C3: a concrete successful session with zero lookups
closes exactly once. -/
theorem c3_witness :
    (posixSession PosixTarget.linuxFamily [108] 1 []
      ⟨fun _ _ => 3, fun _ => none, fun _ _ => 0, fun _ _ => none⟩).countP
        PosixEv.isClose = 1 ∧
    PosixEv.dlclose 3 ∈ posixSession PosixTarget.linuxFamily [108] 1 []
      ⟨fun _ _ => 3, fun _ => none, fun _ _ => 0, fun _ _ => none⟩ :=
  (c3_close_exactly_once PosixTarget.linuxFamily [108] 1 []
    ⟨fun _ _ => 3, fun _ => none, fun _ _ => 0, fun _ _ => none⟩ ⟨1⟩).1
    ⟨3⟩ [PosixEv.dlopen [108]] rfl

/-- C6: the freebsd branch of `openc` and `lookupc` clears the
diagnostic before calling the loader primitive (its trace is exactly a
`dlerror` prepended to the other branch's trace), the other branch
starts directly with the primitive, and on every target a failing
operation is followed immediately by the diagnostic call. -/
theorem c6_freebsd_preclear (p : List Nat) (o : Nat) (h : PosixHandle)
    (n : List Nat) (env : DlEnv) :
    (PosixHandle.openc PosixTarget.freebsd p o env).snd =
      PosixEv.dlerror :: (PosixHandle.openc PosixTarget.linuxFamily p o env).snd ∧
    (PosixHandle.lookupc PosixTarget.freebsd h n env).snd =
      PosixEv.dlerror :: (PosixHandle.lookupc PosixTarget.linuxFamily h n env).snd ∧
    (PosixHandle.openc PosixTarget.linuxFamily p o env).snd.head? =
      some (PosixEv.dlopen p) ∧
    (PosixHandle.lookupc PosixTarget.linuxFamily h n env).snd.head? =
      some (PosixEv.dlsym n) ∧
    (∀ t e, (PosixHandle.openc t p o env).fst = Except.error e →
      (PosixHandle.openc t p o env).snd =
        t.preClear ++ [PosixEv.dlopen p, PosixEv.dlerror]) ∧
    (∀ t e, (PosixHandle.lookupc t h n env).fst = Except.error e →
      (PosixHandle.lookupc t h n env).snd =
        t.preClear ++ [PosixEv.dlsym n, PosixEv.dlerror]) := by
  refine ⟨?_, ?_, ?_, ?_, ?_, ?_⟩
  · by_cases hz : env.dlopen p o = 0 <;>
      simp [PosixHandle.openc, PosixTarget.preClear, hz]
  · by_cases hz : env.dlsym h.ptr n = 0
    · cases hd : env.symDiag h.ptr n <;>
        simp [PosixHandle.lookupc, PosixTarget.preClear, hz, hd]
    · simp [PosixHandle.lookupc, PosixTarget.preClear, hz]
  · by_cases hz : env.dlopen p o = 0 <;>
      simp [PosixHandle.openc, PosixTarget.preClear, hz]
  · by_cases hz : env.dlsym h.ptr n = 0
    · cases hd : env.symDiag h.ptr n <;>
        simp [PosixHandle.lookupc, PosixTarget.preClear, hz, hd]
    · simp [PosixHandle.lookupc, PosixTarget.preClear, hz]
  · intro t e herr
    by_cases hz : env.dlopen p o = 0
    · cases t <;> simp [PosixHandle.openc, PosixTarget.preClear, hz]
    · exfalso
      cases t <;> simp [PosixHandle.openc, PosixTarget.preClear, hz] at herr
  · intro t e herr
    by_cases hz : env.dlsym h.ptr n = 0
    · cases t
      · cases hd : env.symDiag h.ptr n
        · exfalso
          simp [PosixHandle.lookupc, PosixTarget.preClear, hz, hd] at herr
        · simp [PosixHandle.lookupc, PosixTarget.preClear, hz, hd]
      · simp [PosixHandle.lookupc, PosixTarget.preClear, hz]
    · exfalso
      cases t <;> simp [PosixHandle.lookupc, PosixTarget.preClear, hz] at herr

/-- Witness for C6: a concrete failing `openc` on the freebsd branch
calls `dlerror`, then `dlopen`, then `dlerror` again. -/
theorem c6_witness :
    (PosixHandle.openc PosixTarget.freebsd [108] 1
      ⟨fun _ _ => 0, fun _ => none, fun _ _ => 0, fun _ _ => none⟩).snd =
      [PosixEv.dlerror, PosixEv.dlopen [108], PosixEv.dlerror] := by
  have h := (c6_freebsd_preclear [108] 1 ⟨1⟩ [97]
    ⟨fun _ _ => 0, fun _ => none, fun _ _ => 0, fun _ _ => none⟩).2.2.2.2.1
    PosixTarget.freebsd PosixLinkingError.Unknown rfl
  simpa [PosixTarget.preClear] using h

/-- C7: the unified façade forwards the platform backend's result
exactly — a platform `System(msg)` surfaces as façade `System` with the
same message, a platform `Unknown` as façade `Unknown`, and a platform
success as a façade success wrapping the same platform value, for both
`open` and `lookup`. -/
theorem c7_facade_preserves_result (t : PosixTarget) (p : List Nat)
    (hd : Handle) (n : List Nat) (env : DlEnv) :
    (∀ ph, (PosixHandle.openPath t p env).fst = Except.ok ph →
      Handle.openPath t p env = Except.ok ⟨ph⟩) ∧
    (∀ m, (PosixHandle.openPath t p env).fst =
        Except.error (PosixLinkingError.System m) →
      Handle.openPath t p env = Except.error (LinkingError.System m)) ∧
    ((PosixHandle.openPath t p env).fst = Except.error PosixLinkingError.Unknown →
      Handle.openPath t p env = Except.error LinkingError.Unknown) ∧
    (∀ s, (PosixHandle.lookup t hd.inner n env).fst = Except.ok s →
      Handle.lookup t hd n env = Except.ok ⟨s⟩) ∧
    (∀ m, (PosixHandle.lookup t hd.inner n env).fst =
        Except.error (PosixLinkingError.System m) →
      Handle.lookup t hd n env = Except.error (LinkingError.System m)) ∧
    ((PosixHandle.lookup t hd.inner n env).fst =
        Except.error PosixLinkingError.Unknown →
      Handle.lookup t hd n env = Except.error LinkingError.Unknown) := by
  refine ⟨?_, ?_, ?_, ?_, ?_, ?_⟩
  · intro ph hph
    simp [Handle.openPath, hph, LinkingError.fromPlatform]
  · intro m hm
    simp [Handle.openPath, hm, LinkingError.fromPlatform]
  · intro hu
    simp [Handle.openPath, hu, LinkingError.fromPlatform]
  · intro s hs
    simp [Handle.lookup, hs, LinkingError.fromPlatform]
  · intro m hm
    simp [Handle.lookup, hm, LinkingError.fromPlatform]
  · intro hu
    simp [Handle.lookup, hu, LinkingError.fromPlatform]

/-- Witness for C7 at concrete environments: a platform success and a
platform `Unknown` surface unchanged through the façade. -/
theorem c7_witness :
    Handle.openPath PosixTarget.linuxFamily [108]
      ⟨fun _ _ => 3, fun _ => none, fun _ _ => 0, fun _ _ => none⟩ =
      Except.ok ⟨⟨3⟩⟩ ∧
    Handle.lookup PosixTarget.freebsd ⟨⟨3⟩⟩ [97]
      ⟨fun _ _ => 3, fun _ => none, fun _ _ => 0, fun _ _ => none⟩ =
      Except.error LinkingError.Unknown := by
  constructor
  · exact (c7_facade_preserves_result PosixTarget.linuxFamily [108] ⟨⟨3⟩⟩ [97]
      ⟨fun _ _ => 3, fun _ => none, fun _ _ => 0, fun _ _ => none⟩).1 ⟨3⟩ rfl
  · exact (c7_facade_preserves_result PosixTarget.freebsd [108] ⟨⟨3⟩⟩ [97]
      ⟨fun _ _ => 3, fun _ => none, fun _ _ => 0, fun _ _ => none⟩).2.2.2.2.2 rfl
